import Mathlib

/-!
# Verification of the autopi-ext fusion controller and listeners

Shallow embedding (in ℚ, with Python floats modelled as exact rationals and
the transcendental helpers `utils.haversine` / `math.cos ∘ math.radians`
abstracted as function parameters) of the parts of the repository that the
claims C1–C10 are about:

* `e2pilot_main.py` — `E2PilotAutopi.on_speed_message`, `is_obd_alive`,
  `on_distance_message`, `is_within_suggest_speed`, and the GPS distance
  accumulation in `on_location_message`;
* `h11_listener.py` — the distance tracking in `parse_and_publish`;
* `j1939Listener.py` — `pgn2time_interval`;
* `j1939Parser.py` — `parse_data`;
* `route_matcher.py` — `match_solution`, `update_pt`,
  `get_suggest_speed_and_grade`, `get_ratio`, `get_next_speedplan_point`;
* `display_manager.py` — the gauge-angle computation in `set_speed`.
-/

namespace AutopiExt

/-! ## Speed arbitration (`E2PilotAutopi.on_speed_message`) -/

/-- The JSON fields of a speed message that the handler reads:
`data["value"]` on the OBD topics, `data["speed_kmh"]` on `h11gps/speed`. -/
structure SpeedPayload where
  value : ℚ
  speed_kmh : ℚ
  deriving Repr, DecidableEq

/-- One MQTT speed message together with the value of `time.time()` while
the handler processes it. -/
structure SpeedMsg where
  topic : String
  payload : SpeedPayload
  now : ℚ
  deriving Repr, DecidableEq

/-- The fields of `E2PilotAutopi` touched by `on_speed_message`. -/
structure SpeedState where
  current_speed : ℚ
  last_obd_speed_time : ℚ
  deriving Repr, DecidableEq

/-- `self.update_time_threshold = 3.0` (set in `E2PilotAutopi.setup`). -/
def update_time_threshold : ℚ := 3

/-- `E2PilotAutopi.is_obd_alive`: `False` when the OBD listener is disabled,
otherwise true iff the last OBD speed message is younger than
`update_time_threshold` seconds. -/
def is_obd_alive (obd_enable : Bool) (s : SpeedState) (now : ℚ) : Bool :=
  if obd_enable = false then false
  else decide (now - s.last_obd_speed_time < update_time_threshold)

/-- `E2PilotAutopi.on_speed_message` (the state mutation; the trailing
`display_manager.set_speed` call does not touch this state). -/
def on_speed_message (obd_enable : Bool) (s : SpeedState) (m : SpeedMsg) : SpeedState :=
  if m.topic = "j1939/Wheel-Based_Vehicle_Speed" then
    { current_speed := m.payload.value, last_obd_speed_time := m.now }
  else if m.topic = "obd2/speed" then
    { current_speed := m.payload.value, last_obd_speed_time := m.now }
  else if m.topic = "uds/speed" then
    { current_speed := m.payload.value, last_obd_speed_time := m.now }
  else if m.topic = "h11gps/speed" then
    if ¬ is_obd_alive obd_enable s m.now then
      { s with current_speed := m.payload.speed_kmh }
    else s
  else s

/-- Deliver a sequence of speed messages to the handler. -/
def process_speed_msgs (obd_enable : Bool) (s : SpeedState) (ms : List SpeedMsg) : SpeedState :=
  ms.foldl (on_speed_message obd_enable) s

/-! ## J1939 request intervals (`J1939Listener.pgn2time_interval`) -/

def no_interval : ℚ := -1
def fast_interval : ℚ := 1/5
def default_interval : ℚ := 1
def slow_interval : ℚ := 60
def slower_interval : ℚ := 300

/-- The dictionary literal `pgn2time_d` in `J1939Listener.pgn2time_interval`,
entry for entry in source order. -/
def pgn2time_d : List (ℕ × ℚ) :=
  [(65265, fast_interval),
   (65256, fast_interval),
   (65215, default_interval),
   (65266, default_interval),
   (65199, slow_interval),
   (65257, slow_interval),
   (61444, slow_interval),
   (65276, slow_interval),
   (65201, slow_interval),
   (65202, slow_interval),
   (65253, slower_interval),
   (65255, slower_interval),
   (65263, slower_interval),
   (65244, slower_interval),
   (65217, slower_interval),
   (65248, slower_interval),
   (65262, no_interval),
   (65194, no_interval),
   (61443, no_interval),
   (61450, no_interval),
   (65153, no_interval)]

/-- `J1939Listener.pgn2time_interval`: `pgn2time_d.get(pgn, default_interval)`. -/
def pgn2time_interval (pgn : ℕ) : ℚ :=
  (pgn2time_d.lookup pgn).getD default_interval

/-! ## GPS distance accumulation thresholds (C6)

Both accumulators compare a haversine delta `dist` against thresholds.
`utils.haversine` is transcendental (`sin`/`cos`/`asin`/`sqrt`), so the
computed delta enters the embedding as the parameter `dist`; the claims at
stake are purely about the threshold gating. -/

/-- The distance-tracking fields shared by `H11Listener` and the
`on_location_message` accumulator of `E2PilotAutopi`
(`last_lat`/`last_lon` start as `None`, the total at `0.0`). -/
structure GpsTrack where
  last_lat : Option ℚ
  last_lon : Option ℚ
  total_distance_m : ℚ
  deriving Repr, DecidableEq

/-- `H11Listener.min_move_threshold_m = 20.0`. -/
def h11_min_move_threshold_m : ℚ := 20

/-- `E2PilotAutopi.min_move_threshold_m = 10.0` (set in `setup`). -/
def fusion_min_move_threshold_m : ℚ := 10

/-- `E2PilotAutopi.max_move_threshold_m = 1000_000.0` (set in `setup`). -/
def fusion_max_move_threshold_m : ℚ := 1000000

/-- Distance tracking in `H11Listener.parse_and_publish` for a fix at
`(lat, lon)` whose haversine delta from the stored fix is `dist`:
the delta is added (and the stored fix advanced) iff `dist` exceeds the
minimum-move threshold; there is no upper bound in this listener. -/
def h11_track_step (t : GpsTrack) (lat lon dist : ℚ) : GpsTrack :=
  match t.last_lat, t.last_lon with
  | some _, some _ =>
      if dist > h11_min_move_threshold_m then
        { last_lat := some lat, last_lon := some lon,
          total_distance_m := t.total_distance_m + dist }
      else t
  | _, _ => { t with last_lat := some lat, last_lon := some lon }

/-- Distance tracking in `E2PilotAutopi.on_location_message` (lines guarded
by `self.last_lat is not None and self.last_lon is not None`): the delta is
added iff it is strictly between the min and max move thresholds. -/
def fusion_track_step (t : GpsTrack) (lat lon dist : ℚ) : GpsTrack :=
  match t.last_lat, t.last_lon with
  | some _, some _ =>
      if dist > fusion_min_move_threshold_m ∧ dist < fusion_max_move_threshold_m then
        { last_lat := some lat, last_lon := some lon,
          total_distance_m := t.total_distance_m + dist }
      else t
  | _, _ => { t with last_lat := some lat, last_lon := some lon }

/-- Modelled from the spec (C6): a delta is accumulated iff it is greater
than a 20 m minimum-move threshold and smaller than a 10⁶ m ceiling. -/
def claimed_move_gate (dist : ℚ) : Prop := 20 < dist ∧ dist < 1000000

instance : DecidablePred claimed_move_gate := fun d =>
  inferInstanceAs (Decidable (20 < d ∧ d < 1000000))

/-! ## HMI speed gauge angle (`DisplayManager.set_speed`) -/

/-- Python `int(q)`: truncation toward zero. -/
def pyInt (q : ℚ) : ℤ := if q < 0 then ⌈q⌉ else ⌊q⌋

def display_min_angle : ℚ := -45
def display_max_angle : ℚ := 225

/-- The angle computation of `DisplayManager.set_speed`:
`speed = int(speed)`, `angle = (speed / 120) * (max_angle - min_angle) +
min_angle`, one `+= 360` when negative, then `angle = int(angle)`. -/
def set_speed_angle (speed : ℚ) : ℤ :=
  let s : ℤ := pyInt speed
  let angle : ℚ := (s : ℚ) / 120 * (display_max_angle - display_min_angle) + display_min_angle
  let angle : ℚ := if angle < 0 then angle + 360 else angle
  pyInt angle

/-- Modelled from the spec (C8): `angle_deg = (speed / 120) · 270 − 45`,
normalized into `[0, 360)` (here by a single conditional `+ 360`, which is
what normalization means on the claim's domain). -/
def claimed_speed_angle (speed : ℚ) : ℚ :=
  let a : ℚ := speed / 120 * 270 - 45
  if a < 0 then a + 360 else a

/-! ## Distance handler (`E2PilotAutopi.on_distance_message`) -/

/-- The JSON fields of a distance message that the handler reads:
`data["value"]`, and `data["total_distance_m"]` when present
(the handler tests `"total_distance_m" in data`). -/
structure DistPayload where
  value : ℚ
  total_distance_m : Option ℚ
  deriving Repr, DecidableEq

structure DistMsg where
  topic : String
  payload : DistPayload
  deriving Repr, DecidableEq

/-- The fields of `E2PilotAutopi` read or written by `on_distance_message`.
`hr_vehicle_distance` and `vehicle_distance` are Python attributes that do
not exist until first assigned (`hasattr` tests), modelled as `Option`
with `none` for "attribute absent"; `init_vehicle_distance` starts as
`None`. -/
structure DistState where
  hr_vehicle_distance : Option ℚ
  vehicle_distance : Option ℚ
  init_vehicle_distance : Option ℚ
  trip_distance : ℚ
  veh_trip_distance : ℚ
  last_trip_distance : ℚ
  follow_range : ℚ
  follow_rate : ℚ
  current_speed : ℚ
  suggest_speed : ℚ
  deriving Repr, DecidableEq

/-- `self.suggest_speed_tol = 5` (set in `E2PilotAutopi.setup`). -/
def suggest_speed_tol : ℚ := 5

/-- `E2PilotAutopi.is_within_suggest_speed`. -/
def is_within_suggest_speed (s : DistState) : Bool :=
  if s.suggest_speed < 0 then false
  else if s.current_speed < 0 then false
  else if |s.current_speed - s.suggest_speed| ≤ suggest_speed_tol then true
  else false

/-- Lines 235–243 of `on_distance_message` (non-simulation branch):
latch `hr_vehicle_distance` / `vehicle_distance` by topic. -/
def dist_stage_vehicle (s : DistState) (m : DistMsg) : DistState :=
  if m.topic = "j1939/High_Resolution_Total_Vehicle_Distance" then
    { s with hr_vehicle_distance := some (m.payload.value / 1000),
             vehicle_distance := some (m.payload.value / 1000) }
  else if m.topic = "j1939/Total_Vehicle_Distance" ∧ s.hr_vehicle_distance = none then
    { s with vehicle_distance := some m.payload.value }
  else if m.topic = "obd/distance_since_dtc_clear" then
    { s with vehicle_distance := some m.payload.value }
  else s

/-- Lines 245–247: latch the initial vehicle distance once. -/
def dist_stage_init (s : DistState) : DistState :=
  if s.init_vehicle_distance = none ∧ s.vehicle_distance ≠ none then
    { s with init_vehicle_distance := s.vehicle_distance }
  else s

/-- Lines 249–252: take `trip_distance` from `gps/distance`, else fall back
to the vehicle odometer when the H11 GNSS source is not alive. -/
def dist_stage_trip (h11_alive : Bool) (s : DistState) (m : DistMsg) : DistState :=
  if m.topic = "gps/distance" ∧ m.payload.total_distance_m ≠ none then
    { s with trip_distance := m.payload.total_distance_m.getD 0 / 1000 }
  else if ¬ h11_alive ∧ s.vehicle_distance ≠ none then
    { s with veh_trip_distance :=
        s.vehicle_distance.getD 0 - s.init_vehicle_distance.getD 0 }
  else s

/-- Lines 256–270: accumulate `follow_range` and recompute `follow_rate`. -/
def dist_stage_follow (s : DistState) : DistState :=
  if s.last_trip_distance ≠ 0 then
    let delta_d := s.trip_distance - s.last_trip_distance
    let sa :=
      if delta_d > 0 ∧ is_within_suggest_speed s then
        { s with follow_range := s.follow_range + delta_d }
      else s
    if sa.trip_distance > 1/10 then
      { sa with follow_rate :=
          if sa.trip_distance > 0 then 1 * sa.follow_range / sa.trip_distance
          else 0 }
    else sa
  else s

/-- `E2PilotAutopi.on_distance_message` with `virtual_sim_mode = False`
(the branch the claims are about); `h11_alive` is the value of
`self.is_h11_alive()` during the call. The final line stores
`last_trip_distance = trip_distance`. -/
def on_distance_message (h11_alive : Bool) (s : DistState) (m : DistMsg) : DistState :=
  let s4 := dist_stage_follow (dist_stage_trip h11_alive
    (dist_stage_init (dist_stage_vehicle s m)) m)
  { s4 with last_trip_distance := s4.trip_distance }

/-- The fields as first set up by `__init__`/`setup`: no vehicle-distance
attributes yet, `trip_distance = veh_trip_distance = last_trip_distance =
follow_range = follow_rate = 0`, `current_speed = -1`,
`suggest_speed = -10`. -/
def init_dist_state : DistState := ⟨none, none, none, 0, 0, 0, 0, 0, -1, -10⟩

/-- Invariant: a `vehicle_distance` attribute implies the initial vehicle
distance has been latched (the handler latches it in the same call that
first sets `vehicle_distance`). -/
def DistInv (s : DistState) : Prop :=
  s.vehicle_distance = none ∨ s.init_vehicle_distance ≠ none

/-- One fusion distance update as exercised by the follow-rate claims: the
speed fields hold `cur`/`sug` (set by the speed/location handlers), and a
`gps/distance` message delivers a new trip distance of `trip` km. -/
structure FollowUpd where
  trip : ℚ
  cur : ℚ
  sug : ℚ
  deriving Repr, DecidableEq

def follow_step (s : DistState) (u : FollowUpd) : DistState :=
  on_distance_message true
    { s with current_speed := u.cur, suggest_speed := u.sug }
    ⟨"gps/distance", ⟨0, some (u.trip * 1000)⟩⟩

def follow_run (s : DistState) (us : List FollowUpd) : DistState :=
  us.foldl follow_step s

/-- Closed form of the `follow_range` field after one `gps/distance` update
(proved equal to the handler's result in `follow_step_eq`). -/
def followRangeNext (s : DistState) (u : FollowUpd) : ℚ :=
  if s.last_trip_distance ≠ 0 ∧ 0 < u.trip - s.last_trip_distance ∧
      ¬ u.sug < 0 ∧ ¬ u.cur < 0 ∧ |u.cur - u.sug| ≤ 5
  then s.follow_range + (u.trip - s.last_trip_distance)
  else s.follow_range

/-- Closed form of the `follow_rate` field after one `gps/distance` update. -/
def followRateNext (s : DistState) (u : FollowUpd) : ℚ :=
  if s.last_trip_distance ≠ 0 ∧ 1/10 < u.trip
  then (if 0 < u.trip then followRangeNext s u / u.trip else 0)
  else s.follow_rate

/-- Invariant carried through the follow-rate monotonicity argument: the
follow range is between 0 and the last trip distance, the rate is in
`[0, 1]`, consistent with range and trip distance, zero while no trip
distance was seen, and no vehicle-odometer attribute exists (true for a
`gps/distance`-driven run). -/
def FollowInv (s : DistState) : Prop :=
  s.vehicle_distance = none ∧
  0 ≤ s.follow_range ∧ s.follow_range ≤ s.last_trip_distance ∧
  0 ≤ s.follow_rate ∧ s.follow_rate ≤ 1 ∧
  s.follow_rate * s.last_trip_distance ≤ s.follow_range ∧
  (s.last_trip_distance = 0 → s.follow_rate = 0)

/-- Concrete update sequence refuting the literal C2 band: the third update
has `|cur - sug| = 1 ≤ 5` with non-negative suggested speed, but a negative
current speed, which `is_within_suggest_speed` rejects. -/
def c2_upds : List FollowUpd := [⟨1, 10, 10⟩, ⟨2, 10, 10⟩, ⟨3, -1, 0⟩]

/-- Concrete in-band update sequence for the C2 witness. -/
def c2_upds_w : List FollowUpd := [⟨1, 10, 10⟩, ⟨2, 10, 10⟩]

/-! ## J1939 frame parsing (`J1939Parser.parse_data`) -/

/-- One row of the SPN parameter database
(`J1939Parser._load_parameter_db`). -/
structure SpnDesc where
  spn : ℕ
  name : String
  startByte : ℕ
  startBit : ℕ
  bitLength : ℕ
  resolution : ℚ
  offset : ℚ
  unit : String
  deriving Repr, DecidableEq

/-- Python `int.from_bytes(bs, byteorder='little')`. -/
def fromBytesLE (bs : List ℕ) : ℕ := bs.foldr (fun b acc => b + 256 * acc) 0

/-- The `value_bytes` loop of `parse_data`: `cnt` bytes starting at
`start_byte`, zero-padded where the frame is too short. -/
def extractBytes (data : List ℕ) (startByte cnt : ℕ) : List ℕ :=
  (List.range cnt).map fun i =>
    if startByte + i < data.length then data.getD (startByte + i) 0 else 0

/-- Raw value of one SPN as computed by `parse_data`: little-endian
assembly of `bit_length // 8` (floor) bytes, then shift by `start_bit` and
mask to `bit_length` bits when the field is not byte-aligned. -/
def spnRaw (data : List ℕ) (d : SpnDesc) : ℕ :=
  let raw := fromBytesLE (extractBytes data d.startByte (d.bitLength / 8))
  if d.bitLength % 8 ≠ 0 ∨ d.startBit ≠ 0 then
    (raw >>> d.startBit) &&& (2 ^ d.bitLength - 1)
  else raw

/-- Per-SPN output of `parse_data`: the "Data too short for SPN ..." string
when `start_byte ≥ len(data)`, else `{value, unit}`. -/
inductive SpnParsed where
  | tooShort (spn : ℕ)
  | value (v : ℚ) (unit : String)
  deriving Repr, DecidableEq

def parse_spn (data : List ℕ) (d : SpnDesc) : SpnParsed :=
  if d.startByte ≥ data.length then .tooShort d.spn
  else .value ((spnRaw data d : ℚ) * d.resolution + d.offset) d.unit

/-- `J1939Parser.parse_data`: `none` models the `code = -1` "PGN not found
in database" result; otherwise one `{name: ...}` entry per SPN of the
PGN's table, in table order. -/
def parse_data (db : List (ℕ × List SpnDesc)) (pgn : ℕ) (data : List ℕ) :
    Option (List (String × SpnParsed)) :=
  match db.lookup pgn with
  | none => none
  | some tbl => some (tbl.map fun d => (d.name, parse_spn data d))

/-- Modelled from the spec (C3): the raw value assembled from
`⌈bit_length/8⌉` bytes — the code uses `⌊bit_length/8⌋`. -/
def claimedSpnRaw (data : List ℕ) (d : SpnDesc) : ℕ :=
  let raw := fromBytesLE (extractBytes data d.startByte ((d.bitLength + 7) / 8))
  if d.bitLength % 8 ≠ 0 ∨ d.startBit ≠ 0 then
    (raw >>> d.startBit) &&& (2 ^ d.bitLength - 1)
  else raw

/-- A 4-bit SPN at byte 0, unit resolution: the code reads `4 // 8 = 0`
bytes for it, the claim's ceiling formula reads one byte. -/
def c3_desc : SpnDesc := ⟨190, "X", 0, 0, 4, 1, 0, "u"⟩

/-- SPN 190 (engine speed) of PGN 61444 as in the parser's own example:
two bytes at offset 3, resolution 0.125 rpm/bit. -/
def c3_engine_speed : SpnDesc := ⟨190, "Engine Speed", 3, 0, 16, 1/8, 0, "rpm"⟩

/-! ## Route matcher (`route_matcher.py`)

`utils.haversine` and `math.cos ∘ math.radians` are transcendental, so the
matcher is embedded relative to an abstract `GeoFns`; every matcher theorem
holds for all such geometry functions. -/

structure GeoFns where
  hav : ℚ → ℚ → ℚ → ℚ → ℚ
  cosRad : ℚ → ℚ

/-- One speedplan point: `lat`/`lon` are accessed directly
(`point["lat"]`), `veh_state.speed` and `grade` through `.get` with
defaults −1 and 0.0. -/
structure PlanPoint where
  lat : ℚ
  lon : ℚ
  veh_speed : Option ℚ
  grade : Option ℚ
  deriving Repr, DecidableEq

instance : Inhabited PlanPoint := ⟨⟨0, 0, none, none⟩⟩

/-- The `RouteMatcher` fields used by `update_pt` / `match_solution` /
`get_suggest_speed_and_grade`; `route_loaded` models the truthiness of
`self.route_data`, `pts` is `all_speedplan_points`. -/
structure MatcherState where
  pts : List PlanPoint
  route_loaded : Bool
  current_pt_index : ℤ
  latlon : ℚ × ℚ
  projection_dist : ℚ
  pt : Option PlanPoint
  deriving Repr, DecidableEq

/-- Matcher state right after `__init__` and a route load placing `pts`:
`current_pt_index = -1`, `latlon = (0, 0)`, `projection_dist = -1`. -/
def init_matcher (pts : List PlanPoint) (loaded : Bool) : MatcherState :=
  ⟨pts, loaded, -1, (0, 0), -1, none⟩

/-- `dist < min_d` where `min_d` may be `float("inf")` (`none`). -/
def ltInf (x : ℚ) (m : Option ℚ) : Bool :=
  match m with
  | none => true
  | some dd => decide (x < dd)

/-- `min_dist > 50` where `min_dist` may be infinite. -/
def gtInf (m : Option ℚ) (c : ℚ) : Bool :=
  match m with
  | none => true
  | some dd => decide (dd > c)

/-- `min_dist_full < min_dist` on possibly-infinite distances. -/
def ltOptOpt (a b : Option ℚ) : Bool :=
  match a, b with
  | none, _ => false
  | some _, none => true
  | some x, some y => decide (x < y)

/-- Score of candidate segment `i` (`p1 = pts[i]`, `p2 = pts[i+1]`) for the
GPS point `(lat, lon)` inside `find_best_in_range`: the distance to the
projection when it falls inside the segment, the distance to the clamped
projection plus a 10 m penalty when outside, the plain distance to `p1`
for a degenerate segment. (`find_best_in_range` only calls this on indices
in `[0, len − 2]`; list access is totalized with a default.) -/
def segScore (geo : GeoFns) (pts : List PlanPoint) (lat lon cos_l : ℚ) (i : ℕ) : ℚ :=
  let p1 := pts.getD i default
  let p2 := pts.getD (i + 1) default
  let dx := (p2.lon - p1.lon) * cos_l
  let dy := p2.lat - p1.lat
  let mag_sq := dx * dx + dy * dy
  if mag_sq > 0 then
    let gx := (lon - p1.lon) * cos_l
    let gy := lat - p1.lat
    let r := (gx * dx + gy * dy) / mag_sq
    if 0 ≤ r ∧ r ≤ 1 then
      geo.hav lat lon (p1.lat + r * (p2.lat - p1.lat)) (p1.lon + r * (p2.lon - p1.lon))
    else
      let rc := max 0 (min 1 r)
      geo.hav lat lon (p1.lat + rc * (p2.lat - p1.lat))
        (p1.lon + rc * (p2.lon - p1.lon)) + 10
  else geo.hav lat lon p1.lat p1.lon

/-- Loop body of `find_best_in_range`: skip indices outside
`[0, len(pts) − 2]`, keep the strictly smallest score. -/
def fb_step (geo : GeoFns) (pts : List PlanPoint) (lat lon : ℚ)
    (acc : ℤ × Option ℚ) (i : ℤ) : ℤ × Option ℚ :=
  if i < 0 ∨ i ≥ (pts.length : ℤ) - 1 then acc
  else if ltInf (segScore geo pts lat lon (geo.cosRad lat) i.toNat) acc.2 then
    (i, some (segScore geo pts lat lon (geo.cosRad lat) i.toNat))
  else acc

/-- `find_best_in_range`: fold the loop body over the index range starting
from `best_i = -1`, `min_d = inf`. -/
def find_best_in_range (geo : GeoFns) (pts : List PlanPoint) (lat lon : ℚ)
    (idxs : List ℤ) : ℤ × Option ℚ :=
  idxs.foldl (fb_step geo pts lat lon) (-1, none)

/-- Python `range(a, b)` over integers. -/
def rangeZ (a b : ℤ) : List ℤ :=
  (List.range (b - a).toNat).map fun (j : ℕ) => a + (j : ℤ)

/-- The local search window of `match_solution` for a previous match at `k`
over `n` plan points: `range(max(0, k - 20), min(n - 1, k + 100))`. -/
def localSearchWindow (n k : ℤ) : List ℤ :=
  rangeZ (max 0 (k - 20)) (min (n - 1) (k + 100))

/-- Modelled from the spec (C5): the segment indices from `max(0, k−20)` to
`min(n−2, k+100)` inclusive. -/
def claimedSearchWindow (n k : ℤ) : List ℤ :=
  rangeZ (max 0 (k - 20)) (min (n - 2) (k + 100) + 1)

/-- Candidate selection of `match_solution` (lines 163–179): local window
first when a previous match exists, full-range fallback when the window
candidate is missing or farther than 50 m, keeping the better of the two;
plain full-range search when no previous match exists. -/
def best_candidate (geo : GeoFns) (s : MatcherState) (lat lon : ℚ) : ℤ × Option ℚ :=
  let n : ℤ := (s.pts.length : ℤ)
  if s.current_pt_index ≥ 0 then
    let bw := find_best_in_range geo s.pts lat lon
      (localSearchWindow n s.current_pt_index)
    if bw.1 = -1 ∨ gtInf bw.2 50 then
      let bf := find_best_in_range geo s.pts lat lon (rangeZ 0 (n - 1))
      if bf.1 ≠ -1 ∧ ltOptOpt bf.2 bw.2 then bf else bw
    else bw
  else find_best_in_range geo s.pts lat lon (rangeZ 0 (n - 1))

/-- `RouteMatcher.match_solution`: the updated state and the matched point
(`None` when the plan is empty or no candidate exists). -/
def match_solution (geo : GeoFns) (s : MatcherState) (lat lon : ℚ) :
    MatcherState × Option PlanPoint :=
  if s.pts = [] then (s, none)
  else
    let best := best_candidate geo s lat lon
    if best.1 ≠ -1 then
      let pd :=
        match best.2 with
        | some dd => if dd = -1 then s.projection_dist else dd
        | none => s.projection_dist
      ({ s with current_pt_index := best.1, projection_dist := pd },
       some (s.pts.getD best.1.toNat default))
    else (s, none)

/-- `RouteMatcher.update_pt`. -/
def update_pt (geo : GeoFns) (s : MatcherState) (lat lon : ℚ) : MatcherState :=
  let r := match_solution geo s lat lon
  { r.1 with pt := r.2, latlon := (lat, lon) }

/-- A whole sequence of `update_pt` calls. -/
def run_updates (geo : GeoFns) (s : MatcherState) (gps : List (ℚ × ℚ)) : MatcherState :=
  gps.foldl (fun st g => update_pt geo st g.1 g.2) s

/-- `RouteMatcher.get_next_speedplan_point`. -/
def get_next_speedplan_point (s : MatcherState) : Option PlanPoint :=
  if s.current_pt_index = -1 then none
  else if s.current_pt_index < (s.pts.length : ℤ) - 1 then
    some (s.pts.getD (s.current_pt_index + 1).toNat default)
  else some (s.pts.getD s.current_pt_index.toNat default)

/-- `RouteMatcher.get_ratio`: clamped projection ratio of `latlon` on the
segment `p1 → p2` (0 on a degenerate segment). -/
def get_ratio (geo : GeoFns) (p1 p2 : PlanPoint) (latlon : ℚ × ℚ) : ℚ :=
  let cos_lat := geo.cosRad p1.lat
  let dx := (p2.lon - p1.lon) * cos_lat
  let dy := p2.lat - p1.lat
  let mag_sq := dx * dx + dy * dy
  if mag_sq = 0 then 0
  else
    let gx := (latlon.2 - p1.lon) * cos_lat
    let gy := latlon.1 - p1.lat
    max 0 (min 1 ((gx * dx + gy * dy) / mag_sq))

/-- `RouteMatcher.get_suggest_speed_and_grade`: the bare scalar `0.0`
(`Sum.inl`) when no match exists or no route data is loaded, else the
interpolated `(speed, grade)` pair (`Sum.inr`). -/
def get_suggest_speed_and_grade (geo : GeoFns) (s : MatcherState) : ℚ ⊕ (ℚ × ℚ) :=
  if s.current_pt_index = -1 then Sum.inl 0
  else if s.route_loaded = false then Sum.inl 0
  else
    let point := s.pts.getD s.current_pt_index.toNat default
    let next_point := (get_next_speedplan_point s).getD point
    let sug_spd1 := point.veh_speed.getD (-1)
    let sug_spd2 := next_point.veh_speed.getD (-1)
    let grade1 := point.grade.getD 0
    let grade2 := next_point.grade.getD 0
    let ratio := get_ratio geo point next_point s.latlon
    Sum.inr (sug_spd1 * (1 - ratio) + sug_spd2 * ratio,
             grade1 * (1 - ratio) + grade2 * ratio)

/-- The tuple unpacking `sug_spd, g = ...` in
`E2PilotAutopi.on_location_message`: unpacking a bare float raises
`TypeError`, modelled as `none`. -/
def unpack_pair : ℚ ⊕ (ℚ × ℚ) → Option (ℚ × ℚ)
  | Sum.inl _ => none
  | Sum.inr p => some p

/-- Concrete geometry for the C5 witness: constant 7 m distances. -/
def c5w_geo : GeoFns := ⟨fun _ _ _ _ => 7, fun _ => 1⟩

/-- Two coincident plan points (degenerate segment) for the C5 witness. -/
def c5w_pts : List PlanPoint := [⟨0, 0, none, none⟩, ⟨0, 0, none, none⟩]

/-- Matcher state with a previous match at index 0 for the C5 witness. -/
def c5w_state : MatcherState := ⟨c5w_pts, true, 0, (0, 0), -1, none⟩

/-! ## Theorems: speed arbitration (C1) -/

lemma process_speed_take_succ (e : Bool) (s0 : SpeedState) (ms : List SpeedMsg)
    (i : ℕ) (h : i < ms.length) :
    process_speed_msgs e s0 (ms.take (i + 1)) =
      on_speed_message e (process_speed_msgs e s0 (ms.take i)) (ms.get ⟨i, h⟩) := by
  rw [process_speed_msgs, process_speed_msgs, List.take_succ, List.foldl_append]
  simp [List.getElem?_eq_getElem h]

/-- C1: along any sequence of speed messages, a message on one of the OBD
topics always sets `current_speed` to its `value` field and refreshes the
OBD liveness timestamp, while a message on `h11gps/speed` sets
`current_speed` to its `speed_kmh` field exactly when the OBD source is
not alive at processing time (listener disabled, or the last OBD speed
message at least 3 seconds old), and never touches the OBD timestamp. -/
theorem speed_arbitration (e : Bool) (s0 : SpeedState) (ms : List SpeedMsg)
    (i : ℕ) (h : i < ms.length) :
    ((((ms.get ⟨i, h⟩).topic = "j1939/Wheel-Based_Vehicle_Speed" ∨
        (ms.get ⟨i, h⟩).topic = "obd2/speed" ∨
        (ms.get ⟨i, h⟩).topic = "uds/speed") →
      (process_speed_msgs e s0 (ms.take (i + 1))).current_speed =
          (ms.get ⟨i, h⟩).payload.value ∧
        (process_speed_msgs e s0 (ms.take (i + 1))).last_obd_speed_time =
          (ms.get ⟨i, h⟩).now)) ∧
    ((ms.get ⟨i, h⟩).topic = "h11gps/speed" →
      (process_speed_msgs e s0 (ms.take (i + 1))).current_speed =
        (if is_obd_alive e (process_speed_msgs e s0 (ms.take i)) (ms.get ⟨i, h⟩).now
         then (process_speed_msgs e s0 (ms.take i)).current_speed
         else (ms.get ⟨i, h⟩).payload.speed_kmh) ∧
      (process_speed_msgs e s0 (ms.take (i + 1))).last_obd_speed_time =
        (process_speed_msgs e s0 (ms.take i)).last_obd_speed_time) := by
  rw [process_speed_take_succ e s0 ms i h]
  set pre := process_speed_msgs e s0 (ms.take i)
  set m := ms.get ⟨i, h⟩
  constructor
  · rintro (ht | ht | ht) <;> simp [on_speed_message, ht]
  · intro ht
    have h1 : m.topic ≠ "j1939/Wheel-Based_Vehicle_Speed" := by rw [ht]; decide
    have h2 : m.topic ≠ "obd2/speed" := by rw [ht]; decide
    have h3 : m.topic ≠ "uds/speed" := by rw [ht]; decide
    by_cases ha : is_obd_alive e pre m.now <;>
      simp [on_speed_message, ht, h1, h2, h3, ha]

/-- Concrete trace for the C1 witness: `uds/speed=40` at `t=0`, then
`h11gps/speed` carrying 80 km/h at `t=6`, when the OBD source is stale. -/
def c1_msgs : List SpeedMsg :=
  [⟨"uds/speed", ⟨40, 0⟩, 0⟩, ⟨"h11gps/speed", ⟨0, 80⟩, 6⟩]

/-- Witness for C1: on the trace `c1_msgs` the stale OBD source loses and
the GPS speed 80 is adopted. -/
theorem speed_arbitration_witness :
    1 < c1_msgs.length ∧
    (process_speed_msgs true ⟨-1, 0⟩ (c1_msgs.take 2)).current_speed = 80 := by
  have h := (speed_arbitration true ⟨-1, 0⟩ c1_msgs 1 (by decide)).2 (by decide)
  refine ⟨by decide, ?_⟩
  rw [h.1]
  norm_num [c1_msgs, process_speed_msgs, on_speed_message, is_obd_alive,
    update_time_threshold]

/-! ## Theorems: J1939 request-interval table (C4) -/

/-- C4 counterexample: the table maps 61444 to 60 s (not 0.2 s), 65217 and
65248 to 300 s (not 1 s), and has no entry for 65132, which therefore gets
the 1 s default (not a negative listen-only interval). -/
theorem pgn_interval_cex :
    pgn2time_interval 61444 = 60 ∧ pgn2time_interval 61444 ≠ 1/5 ∧
    pgn2time_interval 65217 = 300 ∧ pgn2time_interval 65217 ≠ 1 ∧
    pgn2time_interval 65248 = 300 ∧ pgn2time_interval 65248 ≠ 1 ∧
    pgn2time_interval 65132 = 1 ∧ ¬ pgn2time_interval 65132 < 0 := by
  refine ⟨rfl, ?_, rfl, ?_, rfl, ?_, rfl, ?_⟩
  · rw [show pgn2time_interval 61444 = 60 from rfl]; norm_num
  · rw [show pgn2time_interval 65217 = 300 from rfl]; norm_num
  · rw [show pgn2time_interval 65248 = 300 from rfl]; norm_num
  · rw [show pgn2time_interval 65132 = 1 from rfl]; norm_num

/-- C4 (amended): request intervals are 0.2 s for 65265 and 65256; 1 s for
65215 and 65266; 60 s for 65199, 65257, 61444, 65276, 65201 and 65202;
300 s for 65253, 65255, 65263, 65244, 65217 and 65248; −1 (never request)
for 65262, 65194, 61443, 61450 and 65153; any PGN outside the table
(including 65132) defaults to 1 s. -/
theorem pgn_request_intervals :
    (pgn2time_interval 65265 = 1/5 ∧ pgn2time_interval 65256 = 1/5 ∧
     pgn2time_interval 65215 = 1 ∧ pgn2time_interval 65266 = 1 ∧
     pgn2time_interval 65199 = 60 ∧ pgn2time_interval 65257 = 60 ∧
     pgn2time_interval 61444 = 60 ∧ pgn2time_interval 65276 = 60 ∧
     pgn2time_interval 65201 = 60 ∧ pgn2time_interval 65202 = 60 ∧
     pgn2time_interval 65253 = 300 ∧ pgn2time_interval 65255 = 300 ∧
     pgn2time_interval 65263 = 300 ∧ pgn2time_interval 65244 = 300 ∧
     pgn2time_interval 65217 = 300 ∧ pgn2time_interval 65248 = 300 ∧
     pgn2time_interval 65262 = -1 ∧ pgn2time_interval 65194 = -1 ∧
     pgn2time_interval 61443 = -1 ∧ pgn2time_interval 61450 = -1 ∧
     pgn2time_interval 65153 = -1) ∧
    ∀ pgn : ℕ, pgn ∉ pgn2time_d.map Prod.fst → pgn2time_interval pgn = 1 := by
  refine ⟨⟨rfl, rfl, rfl, rfl, rfl, rfl, rfl, rfl, rfl, rfl, rfl, rfl, rfl,
    rfl, rfl, rfl, rfl, rfl, rfl, rfl, rfl⟩, ?_⟩
  intro pgn h
  simp only [pgn2time_d, List.map_cons, List.map_nil, List.mem_cons,
    List.not_mem_nil, or_false, not_or] at h
  obtain ⟨h1, h2, h3, h4, h5, h6, h7, h8, h9, h10, h11, h12, h13, h14, h15,
    h16, h17, h18, h19, h20, h21⟩ := h
  have b1 := beq_eq_false_iff_ne.mpr h1
  have b2 := beq_eq_false_iff_ne.mpr h2
  have b3 := beq_eq_false_iff_ne.mpr h3
  have b4 := beq_eq_false_iff_ne.mpr h4
  have b5 := beq_eq_false_iff_ne.mpr h5
  have b6 := beq_eq_false_iff_ne.mpr h6
  have b7 := beq_eq_false_iff_ne.mpr h7
  have b8 := beq_eq_false_iff_ne.mpr h8
  have b9 := beq_eq_false_iff_ne.mpr h9
  have b10 := beq_eq_false_iff_ne.mpr h10
  have b11 := beq_eq_false_iff_ne.mpr h11
  have b12 := beq_eq_false_iff_ne.mpr h12
  have b13 := beq_eq_false_iff_ne.mpr h13
  have b14 := beq_eq_false_iff_ne.mpr h14
  have b15 := beq_eq_false_iff_ne.mpr h15
  have b16 := beq_eq_false_iff_ne.mpr h16
  have b17 := beq_eq_false_iff_ne.mpr h17
  have b18 := beq_eq_false_iff_ne.mpr h18
  have b19 := beq_eq_false_iff_ne.mpr h19
  have b20 := beq_eq_false_iff_ne.mpr h20
  have b21 := beq_eq_false_iff_ne.mpr h21
  simp [pgn2time_interval, pgn2time_d, List.lookup, default_interval,
    b1, b2, b3, b4, b5, b6, b7, b8, b9, b10, b11, b12, b13, b14, b15,
    b16, b17, b18, b19, b20, b21]

/-- Witness for C4 at the out-of-table PGN 12345. -/
theorem pgn_request_intervals_witness :
    (12345 : ℕ) ∉ pgn2time_d.map Prod.fst ∧ pgn2time_interval 12345 = 1 :=
  ⟨by decide, pgn_request_intervals.2 12345 (by decide)⟩

/-! ## Theorems: GPS distance accumulation thresholds (C6) -/

/-- C6 counterexample: a 15 m delta is outside the claimed gate
(20 m, 10⁶ m) yet the fusion controller accumulates it (its minimum-move
threshold is 10 m, not 20 m); a 2·10⁶ m delta is outside the claimed gate
yet the H11 listener accumulates it (it has no sanity ceiling). -/
theorem gps_threshold_cex :
    ¬ claimed_move_gate 15 ∧
    (fusion_track_step ⟨some 0, some 0, 0⟩ 1 1 15).total_distance_m = 15 ∧
    (15 : ℚ) ≠ 0 ∧
    ¬ claimed_move_gate 2000000 ∧
    (h11_track_step ⟨some 0, some 0, 0⟩ 1 1 2000000).total_distance_m = 2000000 ∧
    (2000000 : ℚ) ≠ 0 := by
  norm_num [claimed_move_gate, fusion_track_step, h11_track_step,
    fusion_min_move_threshold_m, fusion_max_move_threshold_m,
    h11_min_move_threshold_m]

/-- C6 (amended): with a previous fix stored, the H11 listener adds the
haversine delta iff it exceeds 20 m (no upper ceiling), while the fusion
controller's position handler adds it iff it is strictly between 10 m and
10⁶ m; in every other case the whole tracking state is unchanged. -/
theorem gps_distance_thresholds (t : GpsTrack) (lat lon dist : ℚ)
    (a b : ℚ) (hla : t.last_lat = some a) (hlo : t.last_lon = some b) :
    ((h11_track_step t lat lon dist).total_distance_m =
      (if h11_min_move_threshold_m < dist then t.total_distance_m + dist
       else t.total_distance_m)) ∧
    (¬ h11_min_move_threshold_m < dist → h11_track_step t lat lon dist = t) ∧
    ((fusion_track_step t lat lon dist).total_distance_m =
      (if fusion_min_move_threshold_m < dist ∧ dist < fusion_max_move_threshold_m
       then t.total_distance_m + dist else t.total_distance_m)) ∧
    (¬ (fusion_min_move_threshold_m < dist ∧ dist < fusion_max_move_threshold_m) →
      fusion_track_step t lat lon dist = t) := by
  obtain ⟨ll, lo, tot⟩ := t
  obtain rfl : ll = some a := hla
  obtain rfl : lo = some b := hlo
  refine ⟨?_, ?_, ?_, ?_⟩
  · simp only [h11_track_step, gt_iff_lt]
    split_ifs <;> simp
  · intro h
    simp only [h11_track_step, gt_iff_lt]
    rw [if_neg h]
  · simp only [fusion_track_step, gt_iff_lt]
    split_ifs <;> simp
  · intro h
    simp only [fusion_track_step, gt_iff_lt]
    rw [if_neg h]

/-- Witness for C6 at a stored fix and a 30 m delta. -/
theorem gps_distance_thresholds_witness :
    ((⟨some 0, some 0, (0 : ℚ)⟩ : GpsTrack).last_lat = some 0) ∧
    (h11_track_step ⟨some 0, some 0, 0⟩ 1 1 30).total_distance_m =
      (if h11_min_move_threshold_m < 30 then (0 : ℚ) + 30 else 0) :=
  ⟨rfl, (gps_distance_thresholds ⟨some 0, some 0, 0⟩ 1 1 30 0 0 rfl rfl).1⟩

/-! ## Theorems: HMI speed gauge angle (C8) -/

/-- C8 counterexample: writing speed 180 sends angle 360, which is not in
`[0, 360)` — the code adds 360 at most once and never reduces mod 360. -/
theorem speed_gauge_cex :
    set_speed_angle 180 = 360 ∧ ¬ set_speed_angle 180 < 360 := by
  have h : set_speed_angle 180 = 360 := by
    norm_num [set_speed_angle, pyInt, display_min_angle, display_max_angle]
  exact ⟨h, by rw [h]; omega⟩

lemma abs_pyInt_sub (q : ℚ) : |(pyInt q : ℚ) - q| < 1 := by
  rw [pyInt]
  split_ifs with hq
  · have h1 : q ≤ (⌈q⌉ : ℚ) := Int.le_ceil q
    have h2 : (⌈q⌉ : ℚ) < q + 1 := Int.ceil_lt_add_one q
    rw [abs_lt]; constructor <;> linarith
  · have h1 : (⌊q⌋ : ℚ) ≤ q := Int.floor_le q
    have h2 : q - 1 < (⌊q⌋ : ℚ) := Int.sub_one_lt_floor q
    rw [abs_lt]; constructor <;> linarith

lemma pyInt_lt_twenty_iff (q : ℚ) : pyInt q < 20 ↔ q < 20 := by
  rw [pyInt]
  split_ifs with hq
  · constructor <;> intro
    · linarith
    · have h0 : ⌈q⌉ ≤ 0 := Int.ceil_le.mpr (by exact_mod_cast hq.le)
      omega
  · rw [Int.floor_lt]; norm_num

/-- C8 (amended): the code truncates the speed to an int, computes
`(int(speed)/120)·270 − 45`, adds 360 once when negative and truncates:
whenever `−140 ≤ int(speed) < 180` the sent angle lies in `[0, 360)` and is
within 13/4 degrees of the spec's exact normalized formula `claimed_speed_angle`
(the 13/4 covering the two truncations); at speed 180 the sent angle is 360,
outside the claimed interval. -/
theorem speed_gauge_angle (q : ℚ) (h1 : -140 ≤ pyInt q) (h2 : pyInt q < 180) :
    0 ≤ set_speed_angle q ∧ set_speed_angle q < 360 ∧
    |(set_speed_angle q : ℚ) - claimed_speed_angle q| < 13/4 := by
  have hconst : display_max_angle - display_min_angle = 270 := by
    norm_num [display_max_angle, display_min_angle]
  set s : ℤ := pyInt q with hs
  have hsq : |(s : ℚ) - q| < 1 := abs_pyInt_sub q
  set A : ℚ := (s : ℚ) / 120 * 270 - 45 with hA
  set C : ℚ := q / 120 * 270 - 45 with hC
  have hcode : set_speed_angle q = pyInt (if A < 0 then A + 360 else A) := by
    rw [set_speed_angle, ← hs, hconst, hA, display_min_angle]
    ring_nf
  have hclaim : claimed_speed_angle q = if C < 0 then C + 360 else C := by
    rw [claimed_speed_angle]
  have hAC : |A - C| < 9/4 := by
    have : A - C = 9/4 * ((s : ℚ) - q) := by rw [hA, hC]; ring
    rw [this, abs_mul]
    have : |(9/4 : ℚ)| = 9/4 := by norm_num
    rw [this]
    nlinarith [abs_nonneg ((s : ℚ) - q)]
  have hAiff : A < 0 ↔ (s : ℚ) < 20 := by
    rw [hA]; constructor <;> intro <;> linarith
  have hCiff : C < 0 ↔ q < 20 := by
    rw [hC]; constructor <;> intro <;> linarith
  have hbranch : A < 0 ↔ C < 0 := by
    rw [hAiff, hCiff]
    have := pyInt_lt_twenty_iff q
    rw [← hs] at this
    constructor <;> intro hh
    · exact (this.mp (by exact_mod_cast hh))
    · exact_mod_cast this.mpr hh
  have hs179 : (s : ℚ) ≤ 179 := by exact_mod_cast (by omega : s ≤ 179)
  have hsm140 : (-140 : ℚ) ≤ (s : ℚ) := by exact_mod_cast h1
  clear_value s A C
  by_cases hA0 : A < 0
  · have hC0 : C < 0 := hbranch.mp hA0
    have hnn : 0 ≤ A + 360 := by
      rw [hA]; nlinarith
    have hfl : set_speed_angle q = ⌊A + 360⌋ := by
      rw [hcode, if_pos hA0, pyInt, if_neg (not_lt.mpr hnn)]
    have hfle : (⌊A + 360⌋ : ℚ) ≤ A + 360 := Int.floor_le _
    have hflg : A + 360 - 1 < (⌊A + 360⌋ : ℚ) := Int.sub_one_lt_floor _
    refine ⟨?_, ?_, ?_⟩
    · rw [hfl]
      exact Int.floor_nonneg.mpr hnn
    · rw [hfl]
      have : A + 360 < 360 := by linarith
      have : (⌊A + 360⌋ : ℚ) < 360 := by linarith
      exact_mod_cast this
    · rw [hfl, hclaim, if_pos hC0]
      rw [abs_lt] at hAC ⊢
      obtain ⟨hAC1, hAC2⟩ := hAC
      constructor <;> linarith
  · have hC0 : ¬ C < 0 := fun hh => hA0 (hbranch.mpr hh)
    have hnn : 0 ≤ A := not_lt.mp hA0
    have hfl : set_speed_angle q = ⌊A⌋ := by
      rw [hcode, if_neg hA0, pyInt, if_neg (not_lt.mpr hnn)]
    have hfle : (⌊A⌋ : ℚ) ≤ A := Int.floor_le _
    have hflg : A - 1 < (⌊A⌋ : ℚ) := Int.sub_one_lt_floor _
    refine ⟨?_, ?_, ?_⟩
    · rw [hfl]
      exact Int.floor_nonneg.mpr hnn
    · rw [hfl]
      have hub : A < 360 := by rw [hA]; nlinarith
      have : (⌊A⌋ : ℚ) < 360 := by linarith
      exact_mod_cast this
    · rw [hfl, hclaim, if_neg hC0]
      rw [abs_lt] at hAC ⊢
      obtain ⟨hAC1, hAC2⟩ := hAC
      constructor <;> linarith

/-- Witness for C8 at speed 100 km/h. -/
theorem speed_gauge_angle_witness :
    (-140 ≤ pyInt 100 ∧ pyInt 100 < 180) ∧
    (0 ≤ set_speed_angle 100 ∧ set_speed_angle 100 < 360 ∧
      |(set_speed_angle 100 : ℚ) - claimed_speed_angle 100| < 13/4) :=
  ⟨by norm_num [pyInt],
    speed_gauge_angle 100 (by norm_num [pyInt]) (by norm_num [pyInt])⟩

/-! ## Theorems: obd2 distance topic is dead (C10) -/

/-- C10: in non-simulation mode a message on the subscribed topic
`obd2/distance_since_dtc_clear` leaves `vehicle_distance`,
`init_vehicle_distance` and `trip_distance` unchanged (the handler compares
against `"obd/distance_since_dtc_clear"`, which never matches); the stated
invariant `DistInv` holds initially and is preserved by every message, so
the hypothesis covers all reachable states. -/
lemma dist_stage_follow_keeps (t : DistState) :
    (dist_stage_follow t).vehicle_distance = t.vehicle_distance ∧
    (dist_stage_follow t).init_vehicle_distance = t.init_vehicle_distance ∧
    (dist_stage_follow t).trip_distance = t.trip_distance := by
  simp only [dist_stage_follow]
  split_ifs <;> simp

lemma dist_stage_trip_keeps (a : Bool) (t : DistState) (m : DistMsg) :
    (dist_stage_trip a t m).vehicle_distance = t.vehicle_distance ∧
    (dist_stage_trip a t m).init_vehicle_distance = t.init_vehicle_distance := by
  simp only [dist_stage_trip]
  split_ifs <;> simp

lemma dist_stage_init_inv (t : DistState) : DistInv (dist_stage_init t) := by
  rw [dist_stage_init, DistInv]
  split_ifs with h
  · right; simpa using h.2
  · tauto

lemma on_distance_message_fields (alive : Bool) (s : DistState) (m : DistMsg) :
    (on_distance_message alive s m).vehicle_distance =
      (dist_stage_init (dist_stage_vehicle s m)).vehicle_distance ∧
    (on_distance_message alive s m).init_vehicle_distance =
      (dist_stage_init (dist_stage_vehicle s m)).init_vehicle_distance ∧
    (on_distance_message alive s m).trip_distance =
      (dist_stage_trip alive (dist_stage_init (dist_stage_vehicle s m)) m).trip_distance := by
  simp only [on_distance_message]
  refine ⟨?_, ?_, ?_⟩
  · show (dist_stage_follow _).vehicle_distance = _
    rw [(dist_stage_follow_keeps _).1, (dist_stage_trip_keeps _ _ _).1]
  · show (dist_stage_follow _).init_vehicle_distance = _
    rw [(dist_stage_follow_keeps _).2.1, (dist_stage_trip_keeps _ _ _).2]
  · show (dist_stage_follow _).trip_distance = _
    rw [(dist_stage_follow_keeps _).2.2]

theorem obd2_distance_never_counts (alive : Bool) (s : DistState) (m : DistMsg)
    (hinv : DistInv s) :
    ((m.topic = "obd2/distance_since_dtc_clear" →
      (on_distance_message alive s m).vehicle_distance = s.vehicle_distance ∧
      (on_distance_message alive s m).init_vehicle_distance = s.init_vehicle_distance ∧
      (on_distance_message alive s m).trip_distance = s.trip_distance)) ∧
    DistInv (on_distance_message alive s m) ∧ DistInv init_dist_state := by
  obtain ⟨f1, f2, f3⟩ := on_distance_message_fields alive s m
  refine ⟨?_, ?_, Or.inl rfl⟩
  · intro ht
    have h1 : dist_stage_vehicle s m = s := by
      simp [dist_stage_vehicle, ht]
    have h3 : (dist_stage_trip alive (dist_stage_init s) m).trip_distance =
        (dist_stage_init s).trip_distance := by
      simp [dist_stage_trip, ht, apply_ite DistState.trip_distance]
    have h2 : dist_stage_init s = s := by
      rw [dist_stage_init]
      rcases hinv with h | h <;> simp [h]
    rw [h1] at f1 f2 f3
    rw [h3, h2] at f3
    rw [h2] at f1 f2
    exact ⟨f1, f2, f3⟩
  · rw [DistInv, f1, f2]
    exact dist_stage_init_inv (dist_stage_vehicle s m)

/-- Witness for C10: a concrete `obd2/distance_since_dtc_clear` message on
the initial state changes none of the trip-accounting fields. -/
theorem obd2_distance_never_counts_witness :
    DistInv init_dist_state ∧
    (on_distance_message true init_dist_state
        ⟨"obd2/distance_since_dtc_clear", ⟨123, none⟩⟩).vehicle_distance =
      init_dist_state.vehicle_distance :=
  ⟨Or.inl rfl,
    ((obd2_distance_never_counts true init_dist_state
        ⟨"obd2/distance_since_dtc_clear", ⟨123, none⟩⟩ (Or.inl rfl)).1 rfl).1⟩

/-! ## Theorems: follow-rate monotonicity (C2) -/

lemma is_within_eq_true_iff (s : DistState) :
    is_within_suggest_speed s = true ↔
      ¬ s.suggest_speed < 0 ∧ ¬ s.current_speed < 0 ∧
        |s.current_speed - s.suggest_speed| ≤ 5 := by
  rw [is_within_suggest_speed, suggest_speed_tol]
  split_ifs <;> simp_all

lemma follow_step_eq (s : DistState) (u : FollowUpd)
    (hveh : s.vehicle_distance = none) :
    follow_step s u =
      { s with
          current_speed := u.cur
          suggest_speed := u.sug
          trip_distance := u.trip
          last_trip_distance := u.trip
          follow_range := followRangeNext s u
          follow_rate := followRateNext s u } := by
  rw [follow_step, on_distance_message]
  have h1 : dist_stage_vehicle
      { s with current_speed := u.cur, suggest_speed := u.sug }
      ⟨"gps/distance", ⟨0, some (u.trip * 1000)⟩⟩ =
      { s with current_speed := u.cur, suggest_speed := u.sug } := by
    simp [dist_stage_vehicle]
  have h2 : dist_stage_init
      { s with current_speed := u.cur, suggest_speed := u.sug } =
      { s with current_speed := u.cur, suggest_speed := u.sug } := by
    rw [dist_stage_init]
    simp [hveh]
  have h3 : dist_stage_trip true
      { s with current_speed := u.cur, suggest_speed := u.sug }
      ⟨"gps/distance", ⟨0, some (u.trip * 1000)⟩⟩ =
      { s with
          current_speed := u.cur
          suggest_speed := u.sug
          trip_distance := u.trip } := by
    rw [dist_stage_trip, if_pos ⟨rfl, by simp⟩]
    have : (u.trip * 1000) / 1000 = u.trip :=
      mul_div_cancel_right₀ u.trip (by norm_num)
    simp [this]
  rw [h1, h2, h3, dist_stage_follow]
  simp only [followRangeNext, followRateNext]
  split_ifs <;>
    simp_all [is_within_eq_true_iff, sub_pos] <;>
    linarith

/-- One in-band update preserves `FollowInv`, never decreases the follow
rate, and stores the new trip distance as `last_trip_distance`. -/
lemma follow_step_mono (s : DistState) (u : FollowUpd)
    (hInv : FollowInv s) (hcur : 0 ≤ u.cur) (hsug : 0 ≤ u.sug)
    (hband : |u.cur - u.sug| ≤ 5) (hle : s.last_trip_distance ≤ u.trip) :
    FollowInv (follow_step s u) ∧
    s.follow_rate ≤ (follow_step s u).follow_rate ∧
    (follow_step s u).last_trip_distance = u.trip := by
  obtain ⟨hveh, hfr0, hfrle, hr0, hr1, hrle, hz⟩ := hInv
  rw [follow_step_eq s u hveh]
  have hF : 0 ≤ followRangeNext s u ∧ followRangeNext s u ≤ u.trip ∧
      s.follow_rate * u.trip ≤ followRangeNext s u := by
    by_cases hc : s.last_trip_distance ≠ 0 ∧ 0 < u.trip - s.last_trip_distance ∧
        ¬ u.sug < 0 ∧ ¬ u.cur < 0 ∧ |u.cur - u.sug| ≤ 5
    · rw [followRangeNext, if_pos hc]
      obtain ⟨-, hδ, -⟩ := hc
      refine ⟨by linarith, by linarith, ?_⟩
      nlinarith [mul_le_mul_of_nonneg_right hr1
        (le_of_lt (by linarith : (0:ℚ) < u.trip - s.last_trip_distance))]
    · rw [followRangeNext, if_neg hc]
      rcases not_and_or.mp hc with hc1 | hc2
      · have hL0 : s.last_trip_distance = 0 := not_not.mp hc1
        have hrz := hz hL0
        rw [hL0] at hfrle hle
        exact ⟨hfr0, by linarith, by rw [hrz]; nlinarith⟩
      · rcases not_and_or.mp hc2 with hδ | hb
        · have hδ0 : u.trip - s.last_trip_distance ≤ 0 := not_lt.mp hδ
          have htrip : u.trip = s.last_trip_distance := le_antisymm (by linarith) hle
          exact ⟨hfr0, by rw [htrip]; exact hfrle, by rw [htrip]; exact hrle⟩
        · exact absurd ⟨not_lt.mpr hsug, not_lt.mpr hcur, hband⟩ hb
  obtain ⟨hF0, hFle, hFr⟩ := hF
  have hR : 0 ≤ followRateNext s u ∧ followRateNext s u ≤ 1 ∧
      followRateNext s u * u.trip ≤ followRangeNext s u ∧
      s.follow_rate ≤ followRateNext s u ∧
      (u.trip = 0 → followRateNext s u = 0) := by
    by_cases hc : s.last_trip_distance ≠ 0 ∧ 1/10 < u.trip
    · have htpos : (0:ℚ) < u.trip := lt_trans (by norm_num) hc.2
      rw [followRateNext, if_pos hc, if_pos htpos]
      refine ⟨div_nonneg hF0 htpos.le, ?_, ?_, ?_, ?_⟩
      · exact (div_le_one htpos).mpr hFle
      · rw [div_mul_cancel₀ _ (ne_of_gt htpos)]
      · exact (le_div_iff htpos).mpr hFr
      · intro h0; exact absurd h0 (ne_of_gt htpos)
    · rw [followRateNext, if_neg hc]
      rcases not_and_or.mp hc with hc1 | hc2
      · have hL0 : s.last_trip_distance = 0 := not_not.mp hc1
        have hrz := hz hL0
        rw [hrz]
        rw [hL0] at hle
        exact ⟨le_refl 0, by norm_num, by nlinarith, le_refl 0, fun _ => rfl⟩
      · refine ⟨hr0, hr1, hFr, le_refl _, ?_⟩
        intro h0
        have hL0 : s.last_trip_distance = 0 := by
          have hx1 : 0 ≤ s.last_trip_distance := le_trans hfr0 hfrle
          have hx2 : s.last_trip_distance ≤ 0 := by rw [← h0]; exact hle
          linarith
        exact hz hL0
  obtain ⟨hR0, hR1, hRF, hRmono, hRz⟩ := hR
  exact ⟨⟨hveh, hF0, hFle, hR0, hR1, hRF, hRz⟩, hRmono, rfl⟩

/-- `FollowInv` holds in the initial state. -/
lemma follow_inv_init : FollowInv init_dist_state := by
  rw [FollowInv]
  norm_num [init_dist_state]

lemma follow_run_cons (s : DistState) (u : FollowUpd) (us : List FollowUpd) :
    follow_run s (u :: us) = follow_run (follow_step s u) us := rfl

/-- Along any in-band, trip-monotone update sequence, the follow rate never
decreases from one processed update to the next. -/
lemma follow_run_mono_aux :
    ∀ (us : List FollowUpd) (s : DistState), FollowInv s →
      us.Chain' (fun a b => a.trip ≤ b.trip) →
      (∀ u ∈ us, 0 ≤ u.cur ∧ 0 ≤ u.sug ∧ |u.cur - u.sug| ≤ 5) →
      (∀ u, us.head? = some u → s.last_trip_distance ≤ u.trip) →
      ∀ i, i < us.length →
        (follow_run s (us.take i)).follow_rate ≤
          (follow_run s (us.take (i + 1))).follow_rate := by
  intro us
  induction us with
  | nil => intro s _ _ _ _ i hi; simp at hi
  | cons u tl ih =>
    intro s hInv hchain hband hhead i hi
    have hle : s.last_trip_distance ≤ u.trip := hhead u rfl
    obtain ⟨hb1, hb2, hb3⟩ := hband u (List.mem_cons_self u tl)
    obtain ⟨hInv', hmono, hlast⟩ := follow_step_mono s u hInv hb1 hb2 hb3 hle
    cases i with
    | zero =>
      simpa [follow_run] using hmono
    | succ j =>
      have hchain' : tl.Chain' (fun a b => a.trip ≤ b.trip) :=
        (List.chain'_cons'.mp hchain).2
      have hband' : ∀ v ∈ tl, 0 ≤ v.cur ∧ 0 ≤ v.sug ∧ |v.cur - v.sug| ≤ 5 :=
        fun v hv => hband v (List.mem_cons_of_mem u hv)
      have hhead' : ∀ v, tl.head? = some v →
          (follow_step s u).last_trip_distance ≤ v.trip := by
        intro v hv
        rw [hlast]
        exact (List.chain'_cons'.mp hchain).1 v hv
      have hj : j < tl.length := by simpa using hi
      have := ih (follow_step s u) hInv' hchain' hband' hhead' j hj
      simpa [List.take_succ_cons, follow_run_cons] using this

/-- With every update strictly out of the ±5 band, the follow range and
rate stay exactly 0. -/
lemma follow_run_zero_aux :
    ∀ (us : List FollowUpd) (s : DistState),
      s.vehicle_distance = none → s.follow_range = 0 → s.follow_rate = 0 →
      (∀ u ∈ us, ¬ |u.cur - u.sug| ≤ 5) →
      (follow_run s us).follow_range = 0 ∧ (follow_run s us).follow_rate = 0 := by
  intro us
  induction us with
  | nil => intro s _ hfr hr _; exact ⟨hfr, hr⟩
  | cons u tl ih =>
    intro s hveh hfr hr hband
    rw [follow_run_cons]
    have hstep := follow_step_eq s u hveh
    have hnb := hband u (List.mem_cons_self u tl)
    have hF : followRangeNext s u = 0 := by
      rw [followRangeNext]
      rw [if_neg (by tauto)]
      exact hfr
    have hR : followRateNext s u = 0 := by
      rw [followRateNext, hF]
      split_ifs <;> simp_all
    refine ih (follow_step s u) ?_ ?_ ?_
      (fun v hv => hband v (List.mem_cons_of_mem u hv))
    · rw [hstep]; exact hveh
    · rw [hstep]; exact hF
    · rw [hstep]; exact hR

/-- C2 counterexample: with non-negative, non-decreasing trip distances and
`|current − suggested| ≤ 5`, suggested speed non-negative throughout (the
claim's literal band), the follow rate still decreases: the third update
carries the sentinel current speed −1, which `is_within_suggest_speed`
rejects, so `follow_range` stalls while `trip_distance` grows
(rate 1/2 after two updates, 1/3 after three). -/
theorem follow_rate_cex :
    (∀ u ∈ c2_upds, 0 ≤ u.trip ∧ 0 ≤ u.sug ∧ |u.cur - u.sug| ≤ 5) ∧
    c2_upds.Chain' (fun a b => a.trip ≤ b.trip) ∧
    (follow_run init_dist_state (c2_upds.take 3)).follow_rate <
      (follow_run init_dist_state (c2_upds.take 2)).follow_rate := by
  have h1 : follow_step init_dist_state ⟨1, 10, 10⟩ =
      (⟨none, none, none, 1, 0, 1, 0, 0, 10, 10⟩ : DistState) := by
    rw [follow_step_eq _ _ rfl]
    norm_num [followRangeNext, followRateNext, init_dist_state]
  have h2 : follow_step (⟨none, none, none, 1, 0, 1, 0, 0, 10, 10⟩ : DistState)
      ⟨2, 10, 10⟩ =
      (⟨none, none, none, 2, 0, 2, 1, 1/2, 10, 10⟩ : DistState) := by
    rw [follow_step_eq _ _ rfl]
    norm_num [followRangeNext, followRateNext]
  have h3 : follow_step (⟨none, none, none, 2, 0, 2, 1, 1/2, 10, 10⟩ : DistState)
      ⟨3, -1, 0⟩ =
      (⟨none, none, none, 3, 0, 3, 1, 1/3, -1, 0⟩ : DistState) := by
    rw [follow_step_eq _ _ rfl]
    norm_num [followRangeNext, followRateNext]
  have e2 : follow_run init_dist_state (c2_upds.take 2) =
      (⟨none, none, none, 2, 0, 2, 1, 1/2, 10, 10⟩ : DistState) := by
    rw [show c2_upds.take 2 = [⟨1, 10, 10⟩, ⟨2, 10, 10⟩] from rfl]
    simp only [follow_run, List.foldl_cons, List.foldl_nil, h1, h2]
  have e3 : follow_run init_dist_state (c2_upds.take 3) =
      (⟨none, none, none, 3, 0, 3, 1, 1/3, -1, 0⟩ : DistState) := by
    rw [show c2_upds.take 3 = [⟨1, 10, 10⟩, ⟨2, 10, 10⟩, ⟨3, -1, 0⟩] from rfl]
    simp only [follow_run, List.foldl_cons, List.foldl_nil, h1, h2, h3]
  refine ⟨?_, ?_, ?_⟩
  · intro u hu
    fin_cases hu <;> norm_num
  · norm_num [c2_upds, List.chain'_cons, List.chain'_singleton]
  · rw [e2, e3]
    norm_num

/-- C2 (amended): along any sequence of `gps/distance` updates with
non-negative, non-decreasing trip distances, (a) if at every update the
current speed is non-negative and within 5 km/h of the non-negative
suggested speed (exactly the condition `is_within_suggest_speed` tests),
the computed `follow_rate` is non-decreasing from update to update, and
(b) if every update is strictly outside the ±5 band, `follow_rate` stays
0. The original claim's band admits negative current speeds (e.g. the −1
sentinel), which the code rejects, making (a) fail as stated. -/
theorem follow_rate_monotone (us : List FollowUpd)
    (htrip : ∀ u ∈ us, 0 ≤ u.trip)
    (hchain : us.Chain' (fun a b => a.trip ≤ b.trip)) :
    ((∀ u ∈ us, 0 ≤ u.cur ∧ 0 ≤ u.sug ∧ |u.cur - u.sug| ≤ 5) →
      ∀ i, i < us.length →
        (follow_run init_dist_state (us.take i)).follow_rate ≤
          (follow_run init_dist_state (us.take (i + 1))).follow_rate) ∧
    ((∀ u ∈ us, ¬ |u.cur - u.sug| ≤ 5) →
      ∀ i, (follow_run init_dist_state (us.take i)).follow_rate = 0) := by
  constructor
  · intro hband i hi
    exact follow_run_mono_aux us init_dist_state follow_inv_init hchain hband
      (fun u hu => htrip u (List.mem_of_mem_head? hu)) i hi
  · intro hout i
    exact (follow_run_zero_aux (us.take i) init_dist_state rfl rfl rfl
      (fun u hu => hout u (List.take_subset i us hu))).2

/-- Witness for C2 on a concrete two-update in-band run. -/
theorem follow_rate_monotone_witness :
    ((∀ u ∈ c2_upds_w, 0 ≤ u.trip) ∧
      c2_upds_w.Chain' (fun a b => a.trip ≤ b.trip) ∧
      (∀ u ∈ c2_upds_w, 0 ≤ u.cur ∧ 0 ≤ u.sug ∧ |u.cur - u.sug| ≤ 5) ∧
      1 < c2_upds_w.length) ∧
    (follow_run init_dist_state (c2_upds_w.take 1)).follow_rate ≤
      (follow_run init_dist_state (c2_upds_w.take 2)).follow_rate := by
  have hb : ∀ u ∈ c2_upds_w, 0 ≤ u.cur ∧ 0 ≤ u.sug ∧ |u.cur - u.sug| ≤ 5 := by
    intro u hu; fin_cases hu <;> norm_num
  have ht : ∀ u ∈ c2_upds_w, 0 ≤ u.trip := by
    intro u hu; fin_cases hu <;> norm_num
  have hc : c2_upds_w.Chain' (fun a b => a.trip ≤ b.trip) := by
    norm_num [c2_upds_w, List.chain'_cons, List.chain'_singleton]
  exact ⟨⟨ht, hc, hb, by norm_num [c2_upds_w]⟩,
    (follow_rate_monotone c2_upds_w ht hc).1 hb 1 (by norm_num [c2_upds_w])⟩

/-! ## Theorems: J1939 byte extraction (C3) -/

lemma fromBytesLE_eq_sum (bs : List ℕ) :
    fromBytesLE bs = ∑ i ∈ Finset.range bs.length, bs.getD i 0 * 256 ^ i := by
  induction bs with
  | nil => simp [fromBytesLE]
  | cons b t ih =>
    rw [fromBytesLE] at ih ⊢
    simp only [List.foldr_cons, List.length_cons]
    rw [Finset.sum_range_succ']
    simp only [List.getD_cons_succ, List.getD_cons_zero, pow_zero, mul_one]
    have hterm : ∀ i, t.getD i 0 * 256 ^ (i + 1) = t.getD i 0 * 256 ^ i * 256 := by
      intro i; ring
    rw [Finset.sum_congr rfl (fun i _ => hterm i), ← Finset.sum_mul, ← ih]
    ring

/-- C3 counterexample: for a 4-bit SPN at byte 0 on the one-byte frame
`[0xFF]`, the code assembles `4 // 8 = 0` bytes and emits physical value 0,
while the claim's `⌈4/8⌉ = 1`-byte assembly would give raw 15. -/
theorem j1939_extraction_cex :
    parse_data [(100, [c3_desc])] 100 [255] =
      some [("X", SpnParsed.value ((spnRaw [255] c3_desc : ℚ) * 1 + 0) "u")] ∧
    spnRaw [255] c3_desc = 0 ∧ claimedSpnRaw [255] c3_desc = 15 ∧
    ((0 : ℚ) * 1 + 0 = 0) ∧ ((15 : ℚ) * 1 + 0 = 15) ∧ (0 : ℚ) ≠ 15 := by
  refine ⟨rfl, ?_, ?_, by norm_num, by norm_num, by norm_num⟩
  · simp [spnRaw, c3_desc, extractBytes, fromBytesLE]
  · simp [claimedSpnRaw, c3_desc, extractBytes, fromBytesLE, List.range_succ]
    decide

/-- C3 (amended): for every PGN in the table and frame `b`, each SPN with
`start_byte < len(b)` yields the physical value `raw × resolution + offset`
where `raw` is assembled little-endian from `⌊bit_length/8⌋` bytes starting
at `start_byte` (missing tail bytes as zero), right-shifted by `start_bit`
and reduced mod `2^bit_length` when `bit_length` is not a multiple of 8 or
`start_bit ≠ 0`. The claim's `⌈bit_length/8⌉` byte count does not match
the code. -/
theorem j1939_extraction (db : List (ℕ × List SpnDesc)) (pgn : ℕ)
    (tbl : List SpnDesc) (data : List ℕ) (d : SpnDesc)
    (h1 : db.lookup pgn = some tbl) (h2 : d ∈ tbl)
    (h3 : d.startByte < data.length) :
    ∃ out, parse_data db pgn data = some out ∧
      (d.name, SpnParsed.value
        (((if d.bitLength % 8 ≠ 0 ∨ d.startBit ≠ 0
           then ((∑ i ∈ Finset.range (d.bitLength / 8),
              data.getD (d.startByte + i) 0 * 256 ^ i) / 2 ^ d.startBit)
              % 2 ^ d.bitLength
           else ∑ i ∈ Finset.range (d.bitLength / 8),
              data.getD (d.startByte + i) 0 * 256 ^ i : ℕ) : ℚ)
          * d.resolution + d.offset) d.unit) ∈ out := by
  refine ⟨tbl.map fun d => (d.name, parse_spn data d), by rw [parse_data, h1], ?_⟩
  have hspn : parse_spn data d =
      .value ((spnRaw data d : ℚ) * d.resolution + d.offset) d.unit := by
    rw [parse_spn, if_neg (not_le.mpr h3)]
  have he : extractBytes data d.startByte (d.bitLength / 8) =
      (List.range (d.bitLength / 8)).map fun i => data.getD (d.startByte + i) 0 := by
    rw [extractBytes]
    refine List.map_congr_left fun i hi => ?_
    split_ifs with h
    · rfl
    · rw [List.getD_eq_default]
      omega
  have hsum : fromBytesLE ((List.range (d.bitLength / 8)).map
        fun i => data.getD (d.startByte + i) 0) =
      ∑ i ∈ Finset.range (d.bitLength / 8), data.getD (d.startByte + i) 0 * 256 ^ i := by
    rw [fromBytesLE_eq_sum]
    rw [List.length_map, List.length_range]
    refine Finset.sum_congr rfl fun i hi => ?_
    have hlen : i < ((List.range (d.bitLength / 8)).map
        fun j => data.getD (d.startByte + j) 0).length := by
      simpa using Finset.mem_range.mp hi
    rw [List.getD_eq_getElem _ _ hlen]
    simp
  have hraw : spnRaw data d =
      (if d.bitLength % 8 ≠ 0 ∨ d.startBit ≠ 0
       then ((∑ i ∈ Finset.range (d.bitLength / 8),
          data.getD (d.startByte + i) 0 * 256 ^ i) / 2 ^ d.startBit) % 2 ^ d.bitLength
       else ∑ i ∈ Finset.range (d.bitLength / 8),
          data.getD (d.startByte + i) 0 * 256 ^ i) := by
    rw [spnRaw]
    simp only [he, hsum]
    rw [Nat.shiftRight_eq_div_pow, Nat.and_pow_two_sub_one_eq_mod]
  refine List.mem_map.mpr ⟨d, h2, ?_⟩
  rw [hspn, hraw]

/-- Witness for C3 on the parser's own engine-speed example: PGN 61444,
frame `00 00 00 40 1F 00 00 00`, SPN 190 → 1000 rpm. -/
theorem j1939_extraction_witness :
    (([(61444, [c3_engine_speed])] : List (ℕ × List SpnDesc)).lookup 61444 =
        some [c3_engine_speed] ∧
      c3_engine_speed ∈ [c3_engine_speed] ∧
      c3_engine_speed.startByte < ([0, 0, 0, 64, 31, 0, 0, 0] : List ℕ).length) ∧
    (∃ out, parse_data [(61444, [c3_engine_speed])] 61444 [0, 0, 0, 64, 31, 0, 0, 0] =
        some out ∧
      (c3_engine_speed.name, SpnParsed.value
        (((if c3_engine_speed.bitLength % 8 ≠ 0 ∨ c3_engine_speed.startBit ≠ 0
           then ((∑ i ∈ Finset.range (c3_engine_speed.bitLength / 8),
              ([0, 0, 0, 64, 31, 0, 0, 0] : List ℕ).getD (c3_engine_speed.startByte + i) 0
                * 256 ^ i) / 2 ^ c3_engine_speed.startBit) % 2 ^ c3_engine_speed.bitLength
           else ∑ i ∈ Finset.range (c3_engine_speed.bitLength / 8),
              ([0, 0, 0, 64, 31, 0, 0, 0] : List ℕ).getD (c3_engine_speed.startByte + i) 0
                * 256 ^ i : ℕ) : ℚ)
          * c3_engine_speed.resolution + c3_engine_speed.offset) c3_engine_speed.unit)
        ∈ out) :=
  ⟨⟨rfl, List.mem_singleton.mpr rfl, by norm_num [c3_engine_speed]⟩,
    j1939_extraction [(61444, [c3_engine_speed])] 61444 [c3_engine_speed]
      [0, 0, 0, 64, 31, 0, 0, 0] c3_engine_speed rfl
      (List.mem_singleton.mpr rfl) (by norm_num [c3_engine_speed])⟩

/-! ## Theorems: suggest-speed scalar return (C9) -/

/-- C9: with no matched segment (`current_pt_index = -1`) or no route data,
`get_suggest_speed_and_grade` returns the bare scalar `0.0`, and the
controller's tuple unpacking of it fails (`TypeError`, modelled `none`);
once an index is matched and a route is loaded it always returns a
2-tuple, which unpacks. -/
theorem suggest_speed_scalar (geo : GeoFns) (s : MatcherState) :
    ((s.current_pt_index = -1 ∨ s.route_loaded = false) →
      get_suggest_speed_and_grade geo s = Sum.inl 0 ∧
      unpack_pair (get_suggest_speed_and_grade geo s) = none) ∧
    (s.current_pt_index ≠ -1 → s.route_loaded = true →
      ∃ p, get_suggest_speed_and_grade geo s = Sum.inr p ∧
        unpack_pair (get_suggest_speed_and_grade geo s) = some p) := by
  constructor
  · intro h
    rw [get_suggest_speed_and_grade]
    rcases h with h | h
    · rw [if_pos h]
      exact ⟨rfl, rfl⟩
    · by_cases h1 : s.current_pt_index = -1
      · rw [if_pos h1]
        exact ⟨rfl, rfl⟩
      · rw [if_neg h1, if_pos h]
        exact ⟨rfl, rfl⟩
  · intro h1 h2
    rw [get_suggest_speed_and_grade, if_neg h1, if_neg (by rw [h2]; simp)]
    exact ⟨_, rfl, rfl⟩

/-- Witness for C9: a freshly initialized matcher returns the scalar and
the unpacking fails. -/
theorem suggest_speed_scalar_witness :
    ((init_matcher [] false).current_pt_index = -1 ∨
      (init_matcher [] false).route_loaded = false) ∧
    unpack_pair (get_suggest_speed_and_grade
      ⟨fun _ _ _ _ => 0, fun _ => 1⟩ (init_matcher [] false)) = none :=
  ⟨Or.inl rfl,
    ((suggest_speed_scalar ⟨fun _ _ _ _ => 0, fun _ => 1⟩
      (init_matcher [] false)).1 (Or.inl rfl)).2⟩

/-! ## Theorems: route-matcher index invariant (C7) -/

lemma fb_fold_bounds (geo : GeoFns) (pts : List PlanPoint) (lat lon : ℚ) :
    ∀ (l : List ℤ) (acc : ℤ × Option ℚ),
      (acc.1 = -1 ∨ (0 ≤ acc.1 ∧ acc.1 ≤ (pts.length : ℤ) - 2)) →
      ((l.foldl (fb_step geo pts lat lon) acc).1 = -1 ∨
        (0 ≤ (l.foldl (fb_step geo pts lat lon) acc).1 ∧
          (l.foldl (fb_step geo pts lat lon) acc).1 ≤ (pts.length : ℤ) - 2)) := by
  intro l
  induction l with
  | nil => intro acc h; exact h
  | cons i tl ih =>
    intro acc h
    rw [List.foldl_cons]
    apply ih
    rw [fb_step]
    by_cases hc : i < 0 ∨ i ≥ (pts.length : ℤ) - 1
    · rw [if_pos hc]; exact h
    · rw [if_neg hc]
      push_neg at hc
      split_ifs
      · right
        refine ⟨hc.1, ?_⟩
        have := hc.2
        omega
      · exact h

lemma find_best_in_range_bounds (geo : GeoFns) (pts : List PlanPoint)
    (lat lon : ℚ) (idxs : List ℤ) :
    (find_best_in_range geo pts lat lon idxs).1 = -1 ∨
      (0 ≤ (find_best_in_range geo pts lat lon idxs).1 ∧
        (find_best_in_range geo pts lat lon idxs).1 ≤ (pts.length : ℤ) - 2) :=
  fb_fold_bounds geo pts lat lon idxs (-1, none) (Or.inl rfl)

lemma fb_fold_small (geo : GeoFns) (pts : List PlanPoint) (lat lon : ℚ)
    (hn : pts.length < 2) :
    ∀ (l : List ℤ) (acc : ℤ × Option ℚ),
      l.foldl (fb_step geo pts lat lon) acc = acc := by
  intro l
  induction l with
  | nil => intro acc; rfl
  | cons i tl ih =>
    intro acc
    rw [List.foldl_cons]
    have hskip : fb_step geo pts lat lon acc i = acc := by
      rw [fb_step, if_pos]
      have : (pts.length : ℤ) ≤ 1 := by exact_mod_cast Nat.lt_succ_iff.mp hn
      omega
    rw [hskip, ih]

lemma best_candidate_cases (geo : GeoFns) (s : MatcherState) (lat lon : ℚ) :
    best_candidate geo s lat lon =
      find_best_in_range geo s.pts lat lon
        (localSearchWindow (s.pts.length : ℤ) s.current_pt_index) ∨
    best_candidate geo s lat lon =
      find_best_in_range geo s.pts lat lon (rangeZ 0 ((s.pts.length : ℤ) - 1)) := by
  rw [best_candidate]
  by_cases h1 : s.current_pt_index ≥ 0
  · rw [if_pos h1]
    dsimp only
    split_ifs
    · exact Or.inr rfl
    · exact Or.inl rfl
    · exact Or.inl rfl
  · rw [if_neg h1]
    exact Or.inr rfl

lemma best_candidate_bounds (geo : GeoFns) (s : MatcherState) (lat lon : ℚ) :
    (best_candidate geo s lat lon).1 = -1 ∨
      (0 ≤ (best_candidate geo s lat lon).1 ∧
        (best_candidate geo s lat lon).1 ≤ (s.pts.length : ℤ) - 2) := by
  rcases best_candidate_cases geo s lat lon with h | h <;> rw [h] <;>
    apply find_best_in_range_bounds

lemma best_candidate_small (geo : GeoFns) (s : MatcherState) (lat lon : ℚ)
    (hn : s.pts.length < 2) :
    (best_candidate geo s lat lon).1 = -1 := by
  have hfb : ∀ idxs, find_best_in_range geo s.pts lat lon idxs = (-1, none) :=
    fun idxs => fb_fold_small geo s.pts lat lon hn idxs (-1, none)
  rcases best_candidate_cases geo s lat lon with h | h <;> rw [h, hfb]

lemma match_solution_state (geo : GeoFns) (s : MatcherState) (lat lon : ℚ) :
    (match_solution geo s lat lon).1.pts = s.pts ∧
    ((match_solution geo s lat lon).1.current_pt_index = s.current_pt_index ∨
      ((match_solution geo s lat lon).1.current_pt_index =
          (best_candidate geo s lat lon).1 ∧
        (best_candidate geo s lat lon).1 ≠ -1)) := by
  rw [match_solution]
  by_cases h1 : s.pts = []
  · rw [if_pos h1]
    exact ⟨rfl, Or.inl rfl⟩
  · rw [if_neg h1]
    dsimp only
    by_cases h2 : (best_candidate geo s lat lon).1 ≠ -1
    · rw [if_pos h2]
      exact ⟨rfl, Or.inr ⟨rfl, h2⟩⟩
    · rw [if_neg h2]
      exact ⟨rfl, Or.inl rfl⟩

lemma update_pt_state (geo : GeoFns) (s : MatcherState) (lat lon : ℚ) :
    (update_pt geo s lat lon).pts = s.pts ∧
    ((update_pt geo s lat lon).current_pt_index = s.current_pt_index ∨
      ((update_pt geo s lat lon).current_pt_index =
          (best_candidate geo s lat lon).1 ∧
        (best_candidate geo s lat lon).1 ≠ -1)) := by
  obtain ⟨h1, h2⟩ := match_solution_state geo s lat lon
  rw [update_pt]
  exact ⟨h1, h2⟩

/-- C7: starting from a freshly initialized matcher over any plan, after
any sequence of `update_pt` calls the current index is either −1 or in
`[0, N − 2]`; with fewer than 2 plan points it stays −1. -/
theorem matcher_index_invariant (geo : GeoFns) (pts : List PlanPoint)
    (loaded : Bool) (gps : List (ℚ × ℚ)) :
    ((run_updates geo (init_matcher pts loaded) gps).current_pt_index = -1 ∨
      (0 ≤ (run_updates geo (init_matcher pts loaded) gps).current_pt_index ∧
        (run_updates geo (init_matcher pts loaded) gps).current_pt_index ≤
          (pts.length : ℤ) - 2)) ∧
    (pts.length < 2 →
      (run_updates geo (init_matcher pts loaded) gps).current_pt_index = -1) := by
  suffices H : ∀ (l : List (ℚ × ℚ)) (s : MatcherState), s.pts = pts →
      (s.current_pt_index = -1 ∨
        (0 ≤ s.current_pt_index ∧ s.current_pt_index ≤ (pts.length : ℤ) - 2)) →
      (pts.length < 2 → s.current_pt_index = -1) →
      (run_updates geo s l).pts = pts ∧
      ((run_updates geo s l).current_pt_index = -1 ∨
        (0 ≤ (run_updates geo s l).current_pt_index ∧
          (run_updates geo s l).current_pt_index ≤ (pts.length : ℤ) - 2)) ∧
      (pts.length < 2 → (run_updates geo s l).current_pt_index = -1) by
    obtain ⟨-, h2, h3⟩ :=
      H gps (init_matcher pts loaded) rfl (Or.inl rfl) (fun _ => rfl)
    exact ⟨h2, h3⟩
  intro l
  induction l with
  | nil => intro s h1 h2 h3; exact ⟨h1, h2, h3⟩
  | cons g tl ih =>
    intro s h1 h2 h3
    rw [run_updates, List.foldl_cons]
    obtain ⟨hp, hi⟩ := update_pt_state geo s g.1 g.2
    have hp' : (update_pt geo s g.1 g.2).pts = pts := by rw [hp, h1]
    have hbb := best_candidate_bounds geo s g.1 g.2
    rw [h1] at hbb
    have hinv' : (update_pt geo s g.1 g.2).current_pt_index = -1 ∨
        (0 ≤ (update_pt geo s g.1 g.2).current_pt_index ∧
          (update_pt geo s g.1 g.2).current_pt_index ≤ (pts.length : ℤ) - 2) := by
      rcases hi with hi | ⟨hi, -⟩
      · rw [hi]; exact h2
      · rw [hi]; exact hbb
    have hsmall' : pts.length < 2 →
        (update_pt geo s g.1 g.2).current_pt_index = -1 := by
      intro hn
      rcases hi with hi | ⟨hi, hne⟩
      · rw [hi]; exact h3 hn
      · exact absurd (best_candidate_small geo s g.1 g.2 (by rw [h1]; exact hn)) hne
    exact ih (update_pt geo s g.1 g.2) hp' hinv' hsmall'

/-- Witness for C7 (the statement's second clause is an implication): on an
empty plan, any update sequence leaves the index at −1. -/
theorem matcher_index_invariant_witness :
    ([] : List PlanPoint).length < 2 ∧
    (run_updates ⟨fun _ _ _ _ => 0, fun _ => 1⟩ (init_matcher [] true)
      [(1, 2)]).current_pt_index = -1 :=
  ⟨by norm_num,
    (matcher_index_invariant ⟨fun _ _ _ _ => 0, fun _ => 1⟩ [] true [(1, 2)]).2
      (by norm_num)⟩

/-! ## Theorems: route-matcher search window (C5) -/

/-- C5 counterexample: with a plan of `N = 102` points and a previous match
at `k = 0`, the claimed inclusive window `[max(0, k−20), min(N−2, k+100)]`
contains segment index 100, but the code's window
`range(max(0, k−20), min(N−1, k+100))` (evaluated inside `match_solution`
via `localSearchWindow`) stops at 99: the windows differ, so the matcher
does not "first evaluate exactly" the claimed indices. -/
theorem matcher_window_cex :
    (100 : ℤ) ∈ claimedSearchWindow 102 0 ∧
    (100 : ℤ) ∉ localSearchWindow 102 0 ∧
    localSearchWindow 102 0 ≠ claimedSearchWindow 102 0 := by decide

lemma mem_rangeZ (a b i : ℤ) : i ∈ rangeZ a b ↔ a ≤ i ∧ i < b := by
  rw [rangeZ, List.mem_map]
  constructor
  · rintro ⟨j, hj, rfl⟩
    rw [List.mem_range] at hj
    omega
  · rintro ⟨h1, h2⟩
    refine ⟨(i - a).toNat, ?_, ?_⟩
    · rw [List.mem_range]
      omega
    · omega

lemma best_candidate_spec (geo : GeoFns) (s : MatcherState) (lat lon : ℚ)
    (hk0 : s.current_pt_index ≥ 0) :
    best_candidate geo s lat lon =
      (if (find_best_in_range geo s.pts lat lon
            (localSearchWindow (s.pts.length : ℤ) s.current_pt_index)).1 = -1 ∨
          gtInf (find_best_in_range geo s.pts lat lon
            (localSearchWindow (s.pts.length : ℤ) s.current_pt_index)).2 50 = true
       then
        (if (find_best_in_range geo s.pts lat lon
              (rangeZ 0 ((s.pts.length : ℤ) - 1))).1 ≠ -1 ∧
            ltOptOpt (find_best_in_range geo s.pts lat lon
                (rangeZ 0 ((s.pts.length : ℤ) - 1))).2
              (find_best_in_range geo s.pts lat lon
                (localSearchWindow (s.pts.length : ℤ) s.current_pt_index)).2 = true
         then find_best_in_range geo s.pts lat lon (rangeZ 0 ((s.pts.length : ℤ) - 1))
         else find_best_in_range geo s.pts lat lon
           (localSearchWindow (s.pts.length : ℤ) s.current_pt_index))
       else find_best_in_range geo s.pts lat lon
         (localSearchWindow (s.pts.length : ℤ) s.current_pt_index)) := by
  rw [best_candidate, if_pos hk0]

lemma match_solution_index (geo : GeoFns) (s : MatcherState) (lat lon : ℚ)
    (hpts : s.pts ≠ []) (hb : (best_candidate geo s lat lon).1 ≠ -1) :
    (match_solution geo s lat lon).1.current_pt_index =
      (best_candidate geo s lat lon).1 := by
  rw [match_solution, if_neg hpts]
  dsimp only
  rw [if_pos hb]

/-- C5 (amended): with a previous match at `k ≥ 0` over `n` plan points,
the locally evaluated segment indices are exactly `max(0, k−20) ≤ i <
min(n−1, k+100)` — the half-open Python `range`, i.e. inclusive upper end
`min(n−2, k+99)`, not the claimed `min(n−2, k+100)`; if the window's best
candidate exists within 50 m it is adopted outright, otherwise the whole
range `0..n−2` is evaluated and the candidate with the strictly smaller
score is kept (ties keep the window candidate). -/
theorem matcher_search_window (geo : GeoFns) (s : MatcherState) (lat lon : ℚ)
    (n k i : ℤ) (hn : n = (s.pts.length : ℤ)) (hk : s.current_pt_index = k)
    (hk0 : 0 ≤ k) (hpts : s.pts ≠ []) :
    (i ∈ localSearchWindow n k ↔
      max 0 (k - 20) ≤ i ∧ i < min (n - 1) (k + 100)) ∧
    ((find_best_in_range geo s.pts lat lon (localSearchWindow n k)).1 ≠ -1 →
      gtInf (find_best_in_range geo s.pts lat lon
        (localSearchWindow n k)).2 50 = false →
      (match_solution geo s lat lon).1.current_pt_index =
        (find_best_in_range geo s.pts lat lon (localSearchWindow n k)).1) ∧
    (((find_best_in_range geo s.pts lat lon (localSearchWindow n k)).1 = -1 ∨
        gtInf (find_best_in_range geo s.pts lat lon
          (localSearchWindow n k)).2 50 = true) →
      (find_best_in_range geo s.pts lat lon (rangeZ 0 (n - 1))).1 ≠ -1 →
      ltOptOpt (find_best_in_range geo s.pts lat lon (rangeZ 0 (n - 1))).2
        (find_best_in_range geo s.pts lat lon (localSearchWindow n k)).2 = true →
      (match_solution geo s lat lon).1.current_pt_index =
        (find_best_in_range geo s.pts lat lon (rangeZ 0 (n - 1))).1) ∧
    (((find_best_in_range geo s.pts lat lon (localSearchWindow n k)).1 = -1 ∨
        gtInf (find_best_in_range geo s.pts lat lon
          (localSearchWindow n k)).2 50 = true) →
      ¬ ((find_best_in_range geo s.pts lat lon (rangeZ 0 (n - 1))).1 ≠ -1 ∧
          ltOptOpt (find_best_in_range geo s.pts lat lon (rangeZ 0 (n - 1))).2
            (find_best_in_range geo s.pts lat lon
              (localSearchWindow n k)).2 = true) →
      (find_best_in_range geo s.pts lat lon (localSearchWindow n k)).1 ≠ -1 →
      (match_solution geo s lat lon).1.current_pt_index =
        (find_best_in_range geo s.pts lat lon (localSearchWindow n k)).1) ∧
    (∀ x y : ℚ,
      (find_best_in_range geo s.pts lat lon (localSearchWindow n k)).2 = some x →
      (find_best_in_range geo s.pts lat lon (rangeZ 0 (n - 1))).2 = some y →
      (find_best_in_range geo s.pts lat lon (rangeZ 0 (n - 1))).1 ≠ -1 →
      (if (find_best_in_range geo s.pts lat lon (rangeZ 0 (n - 1))).1 ≠ -1 ∧
          ltOptOpt (find_best_in_range geo s.pts lat lon (rangeZ 0 (n - 1))).2
            (find_best_in_range geo s.pts lat lon
              (localSearchWindow n k)).2 = true
       then find_best_in_range geo s.pts lat lon (rangeZ 0 (n - 1))
       else find_best_in_range geo s.pts lat lon (localSearchWindow n k)).2 =
        some (min x y)) := by
  subst hn
  have hk0' : s.current_pt_index ≥ 0 := by rw [hk]; exact hk0
  have hspec := best_candidate_spec geo s lat lon hk0'
  rw [hk] at hspec
  refine ⟨?_, ?_, ?_, ?_, ?_⟩
  · rw [localSearchWindow, mem_rangeZ]
  · intro h1 h2
    have hbc : best_candidate geo s lat lon =
        find_best_in_range geo s.pts lat lon
          (localSearchWindow (s.pts.length : ℤ) k) := by
      rw [hspec, if_neg]
      rw [not_or, h2]
      exact ⟨h1, by simp⟩
    rw [match_solution_index geo s lat lon hpts (by rw [hbc]; exact h1), hbc]
  · intro h1 h2 h3
    have hbc : best_candidate geo s lat lon =
        find_best_in_range geo s.pts lat lon
          (rangeZ 0 ((s.pts.length : ℤ) - 1)) := by
      rw [hspec, if_pos h1, if_pos ⟨h2, h3⟩]
    rw [match_solution_index geo s lat lon hpts (by rw [hbc]; exact h2), hbc]
  · intro h1 h2 h3
    have hbc : best_candidate geo s lat lon =
        find_best_in_range geo s.pts lat lon
          (localSearchWindow (s.pts.length : ℤ) k) := by
      rw [hspec, if_pos h1, if_neg h2]
    rw [match_solution_index geo s lat lon hpts (by rw [hbc]; exact h3), hbc]
  · intro x y hx hy hne
    rw [hx, hy]
    by_cases hlt : y < x
    · rw [if_pos ⟨hne, decide_eq_true hlt⟩, hy]
      rw [min_eq_right (le_of_lt hlt)]
    · rw [if_neg fun hcon => hlt (of_decide_eq_true hcon.2), hx]
      rw [min_eq_left (le_of_not_lt hlt)]

/-- Witness for C5: on a two-point plan with a previous match at 0 and a
7 m window candidate, the matcher adopts the window candidate outright. -/
theorem matcher_search_window_witness :
    ((2 : ℤ) = (c5w_state.pts.length : ℤ) ∧ c5w_state.current_pt_index = 0 ∧
      (0 : ℤ) ≤ 0 ∧ c5w_state.pts ≠ []) ∧
    (match_solution c5w_geo c5w_state 0 0).1.current_pt_index =
      (find_best_in_range c5w_geo c5w_state.pts 0 0 (localSearchWindow 2 0)).1 := by
  have hne : c5w_state.pts ≠ [] := List.cons_ne_nil _ _
  have hthm := (matcher_search_window c5w_geo c5w_state 0 0 2 0 0 rfl rfl
    (le_refl 0) hne).2.1
  have hbw : find_best_in_range c5w_geo c5w_state.pts 0 0 (localSearchWindow 2 0) =
      (0, some (segScore c5w_geo c5w_state.pts 0 0 (c5w_geo.cosRad 0) 0)) := rfl
  have hseg : segScore c5w_geo c5w_state.pts 0 0 (c5w_geo.cosRad 0) 0 = 7 := by
    norm_num [segScore, c5w_state, c5w_pts, c5w_geo]
  refine ⟨⟨rfl, rfl, le_refl 0, hne⟩, ?_⟩
  apply hthm
  · rw [hbw]
    norm_num
  · rw [hbw, hseg]
    show decide ((7 : ℚ) > 50) = false
    exact decide_eq_false (by norm_num)

end AutopiExt
